import Mathlib

/-!
# Verification of `src/coreclr/src/binder/inc/bindertracing.h`

Shallow embedding of the `BinderTracing` namespace: the stage-by-stage
resolution-attempt tracker (`ResolutionAttemptedOperation`), the bind-attempt
wrapper (`AssemblyBindOperation`) and the single-shot path-probe report
(`PathProbed`).

Only the header is in the repository excerpt; the bodies that live in
`bindertracing.cpp` (`TraceStageEnd`, `ShouldIgnoreBind`, `PathProbed`, the
`AssemblyBindOperation` constructor/destructor and `SetResult`) are modelled
from the specification, each marked `Modelled from the spec:` in its doc
comment.  Everything whose body is in the header (the
`ResolutionAttemptedOperation` constructor, its setters, `GoToStage`, its
destructor) is translated from the header directly.

Modelling decisions, all visible in the header:
* `HRESULT` is a 32-bit signed code; `SUCCEEDED(hr)` is `0 ≤ hr`.  We model
  it as `Int`.  The `const HRESULT &m_hr` member is a live reference to a
  slot owned by the caller, so the embedding passes the slot's *current*
  value as an argument at every point where the code reads it (stage
  transition, destruction).
* `assert` failures are modelled by returning `none` from `GoToStage`
  (`some` means no assertion fired).
* Event emission is modelled by returning the list of events an operation
  emits.
* The constructor's mem-initializer list at bindertracing.h:118 names
  `m_lastStage`, but the declared member (bindertracing.h:102) is `m_stage`;
  as written the class is ill-formed C++ and `m_stage` is never initialized.
  The intent — unambiguous from the comment on `Stage::NotYetStarted`
  ("Used as flag to not fire event") and from the destructor — is to
  initialize the stage member to `NotYetStarted`; the embedding's
  constructor follows that intent, and the slip is recorded against the
  claim about construction.
-/

namespace BinderTracing

/-- `SUCCEEDED(hr)` for a Windows `HRESULT`: non-negative codes are success. -/
def SUCCEEDED (hr : Int) : Bool := decide (0 ≤ hr)

/-- `BINDER_SPACE::AssemblyName`, reduced to the identity data the tracing
core queries: a simple name and an opaque version stamp.  The header treats
it as an externally-owned object reached through a non-owning pointer. -/
structure AssemblyName where
  simpleName : String
  version : Nat
  deriving DecidableEq, Repr

/-- `BINDER_SPACE::Assembly`, reduced to the assembly-name identity the
tracing core cross-references during classification. -/
structure Assembly where
  name : AssemblyName
  deriving DecidableEq, Repr

/-- `PEAssembly`, the result object recorded by
`AssemblyBindOperation::SetResult`; opaque to the tracing core. -/
structure PEAssembly where
  id : Nat
  deriving DecidableEq, Repr

/-- `ResolutionAttemptedOperation::Stage` (bindertracing.h:74-83), with the
sentinel `NotYetStarted`. -/
inductive Stage where
  | FindInLoadContext
  | AssemblyLoadContextLoad
  | PlatformAssemblies
  | DefaultAssemblyLoadContextFallback
  | AssemblyLoadContextResolvingEvent
  | AppDomainAssemblyResolveEvent
  | NotYetStarted
  deriving DecidableEq, Repr

/-- The `uint16_t` value of each `Stage` enumerator, as written in the
header (`FindInLoadContext = 0`, …, `NotYetStarted = 0xffff`). -/
def Stage.toVal : Stage → Nat
  | .FindInLoadContext => 0
  | .AssemblyLoadContextLoad => 1
  | .PlatformAssemblies => 2
  | .DefaultAssemblyLoadContextFallback => 3
  | .AssemblyLoadContextResolvingEvent => 4
  | .AppDomainAssemblyResolveEvent => 5
  | .NotYetStarted => 0xffff

/-- `ResolutionAttemptedOperation::Result` (bindertracing.h:87-94), the
stage-end classification; the `IncompatbileVersion` misspelling is the
source's. -/
inductive Result where
  | Success
  | AssemblyNotFound
  | IncompatbileVersion
  | MismatchedAssemblyName
  | Failure
  deriving DecidableEq, Repr

/-- One emitted stage-end event: the stage just ended, its classification,
and the context the tracker held at emission time (sought name, found
assembly, managed-ALC handle). -/
structure StageEndEvent where
  stage : Stage
  result : Result
  soughtName : Option AssemblyName
  foundAssembly : Option Assembly
  managedALC : Int
  deriving DecidableEq, Repr

/-- The mutable state of a `ResolutionAttemptedOperation`
(bindertracing.h:100-109).  The `const HRESULT &m_hr` reference is not part
of the state: it is a live view into a caller-owned slot, so the embedding
passes the slot's current value wherever the code reads it. -/
structure ResolutionAttemptedOperation where
  m_stage : Stage
  m_pAssemblyName : Option AssemblyName
  m_pFoundAssembly : Option Assembly
  m_pManagedALC : Int
  m_tracingEnabled : Bool
  deriving DecidableEq, Repr

namespace ResolutionAttemptedOperation

/-- Modelled from the spec: the classification performed inside
`ResolutionAttemptedOperation::TraceStageEnd`, whose body lives in
`bindertracing.cpp` and is missing from the excerpt.  Per spec §4.2/§8:
a successful `HRESULT` classifies as Success; otherwise no found module
classifies as module-not-found; a found module whose simple name differs
from the sought name classifies as mismatched name; a found module with
matching name failing the version/compatibility check classifies as
incompatible version; anything else failing is a generic failure.  The
version/compatibility check itself belongs to the external binder, so it is
a parameter `compat`. -/
def classify (compat : AssemblyName → AssemblyName → Bool) (hr : Int)
    (sought : Option AssemblyName) (found : Option Assembly) : Result :=
  if SUCCEEDED hr then
    Result.Success
  else
    match found with
    | none => Result.AssemblyNotFound
    | some a =>
      match sought with
      | none => Result.Failure
      | some n =>
        if a.name.simpleName = n.simpleName then
          if compat n a.name then Result.Failure
          else Result.IncompatbileVersion
        else
          Result.MismatchedAssemblyName

/-- Modelled from the spec: `ResolutionAttemptedOperation::TraceStageEnd`,
declared at bindertracing.h:111 with its body in `bindertracing.cpp`,
missing from the excerpt.  Per the header comment on `Stage::NotYetStarted`
("Used as flag to not fire event; not present in value map") and spec §4.2,
it fires one stage-end event for the current stage — classified from the
shared `HRESULT` slot's current value `hr` — unless the current stage is
still the sentinel, in which case it fires nothing.  (The header declares a
`Stage resStage` parameter, but both call sites in the header pass no
argument; the embedding follows the call sites and reads `m_stage`.) -/
def TraceStageEnd (compat : AssemblyName → AssemblyName → Bool)
    (op : ResolutionAttemptedOperation) (hr : Int) : List StageEndEvent :=
  if op.m_stage = Stage.NotYetStarted then
    []
  else
    [{ stage := op.m_stage
       result := classify compat hr op.m_pAssemblyName op.m_pFoundAssembly
       soughtName := op.m_pAssemblyName
       foundAssembly := op.m_pFoundAssembly
       managedALC := op.m_pManagedALC }]

/-- The constructor (bindertracing.h:115-125): all pointers null, ALC handle
zero, tracing flag captured once from `EventEnabledResolutionAttempted()`
(passed in as `tracingEnabled`), and the stage member initialized to the
`NotYetStarted` sentinel.  NOTE: the source's mem-initializer list names
`m_lastStage`, a member that does not exist; the embedding follows the
evident intent of initializing `m_stage` (see the file header). -/
def construct (tracingEnabled : Bool) : ResolutionAttemptedOperation :=
  { m_stage := Stage.NotYetStarted
    m_pAssemblyName := none
    m_pFoundAssembly := none
    m_pManagedALC := 0
    m_tracingEnabled := tracingEnabled }

/-- `SetAssemblyName` (bindertracing.h:127-132): unconditionally stores the
pointer; the header body performs no `m_tracingEnabled` check. -/
def SetAssemblyName (op : ResolutionAttemptedOperation)
    (assemblyName : Option AssemblyName) : ResolutionAttemptedOperation :=
  { op with m_pAssemblyName := assemblyName }

/-- `SetManagedALC` (bindertracing.h:134-139): unconditionally stores the
handle; no `m_tracingEnabled` check. -/
def SetManagedALC (op : ResolutionAttemptedOperation)
    (managedALC : Int) : ResolutionAttemptedOperation :=
  { op with m_pManagedALC := managedALC }

/-- `SetFoundAssembly` (bindertracing.h:141-146): unconditionally stores the
pointer; no `m_tracingEnabled` check. -/
def SetFoundAssembly (op : ResolutionAttemptedOperation)
    (assembly : Option Assembly) : ResolutionAttemptedOperation :=
  { op with m_pFoundAssembly := assembly }

/-- `GoToStage` (bindertracing.h:148-165).  When `m_tracingEnabled`, after
`assert(m_stage != stage)` and `assert(stage != Stage::NotYetStarted)` it
calls `TraceStageEnd()` for the current stage and then sets
`m_stage = stage`.  When tracing is disabled the whole body is skipped.
`hr` is the current value of the shared `HRESULT` slot; `none` models an
assertion failure, `some (op, evs)` the new state and emitted events. -/
def GoToStage (compat : AssemblyName → AssemblyName → Bool)
    (op : ResolutionAttemptedOperation) (hr : Int) (stage : Stage) :
    Option (ResolutionAttemptedOperation × List StageEndEvent) :=
  if op.m_tracingEnabled then
    if op.m_stage = stage then
      none
    else if stage = Stage.NotYetStarted then
      none
    else
      some ({ op with m_stage := stage }, TraceStageEnd compat op hr)
  else
    some (op, [])

/-- The destructor (bindertracing.h:168-174): if `m_tracingEnabled`, calls
`TraceStageEnd()` for whatever stage is current; `hr` is the shared slot's
value at destruction time. -/
def destruct (compat : AssemblyName → AssemblyName → Bool)
    (op : ResolutionAttemptedOperation) (hr : Int) : List StageEndEvent :=
  if op.m_tracingEnabled then TraceStageEnd compat op hr else []

/-- Runs a sequence of `GoToStage` calls, each with the value the shared
`HRESULT` slot holds at that call.  `none` as soon as one call's assertion
fails; otherwise the final state and the concatenation of all emitted
events. -/
def runGoToStages (compat : AssemblyName → AssemblyName → Bool)
    (op : ResolutionAttemptedOperation) :
    List (Int × Stage) → Option (ResolutionAttemptedOperation × List StageEndEvent)
  | [] => some (op, [])
  | (hr, s) :: rest =>
    (GoToStage compat op hr s).bind fun p =>
      (runGoToStages compat p.1 rest).map fun q => (q.1, p.2 ++ q.2)

/-- The stage identifiers `TraceStageEnd` would report for a state: none
while still at the sentinel, exactly the current stage otherwise. -/
def stageList (op : ResolutionAttemptedOperation) : List Stage :=
  if op.m_stage = Stage.NotYetStarted then [] else [op.m_stage]

end ResolutionAttemptedOperation

/-- One call made on a `ResolutionAttemptedOperation` during its lifetime:
a setter, or a `GoToStage` transition together with the value the shared
`HRESULT` slot holds at that call. -/
inductive TrackerOp where
  | setAssemblyName (assemblyName : Option AssemblyName)
  | setManagedALC (managedALC : Int)
  | setFoundAssembly (assembly : Option Assembly)
  | goToStage (hr : Int) (s : Stage)
  deriving DecidableEq, Repr

namespace ResolutionAttemptedOperation

/-- Applies one lifetime call: the three setters never fail an assertion and
emit nothing; `GoToStage` behaves as defined above. -/
def applyOp (compat : AssemblyName → AssemblyName → Bool)
    (op : ResolutionAttemptedOperation) :
    TrackerOp → Option (ResolutionAttemptedOperation × List StageEndEvent)
  | .setAssemblyName n => some (op.SetAssemblyName n, [])
  | .setManagedALC v => some (op.SetManagedALC v, [])
  | .setFoundAssembly a => some (op.SetFoundAssembly a, [])
  | .goToStage hr s => GoToStage compat op hr s

/-- Runs an arbitrary interleaving of setter and `GoToStage` calls,
collecting emitted events; `none` as soon as an assertion fails. -/
def runOps (compat : AssemblyName → AssemblyName → Bool)
    (op : ResolutionAttemptedOperation) :
    List TrackerOp → Option (ResolutionAttemptedOperation × List StageEndEvent)
  | [] => some (op, [])
  | o :: rest =>
    (applyOp compat op o).bind fun p =>
      (runOps compat p.1 rest).map fun q => (q.1, p.2 ++ q.2)

end ResolutionAttemptedOperation

/-- The fields of an `AssemblyBindOperation` (bindertracing.h:43-51) that
the suppression and result logic touches.  The lazily-populated
`m_bindRequest` string snapshot is irrelevant to the claims and omitted. -/
structure AssemblyBindOperation where
  m_checkedIgnoreBind : Bool
  m_ignoreBind : Bool
  m_resultAssembly : Option PEAssembly
  m_cached : Bool
  deriving DecidableEq, Repr

namespace AssemblyBindOperation

/-- One emitted bind event.  The spec's design (§4.1) defines one stop event
per instance carrying whether a result was set and whether it came from
cache; a start emission is left a design choice, so the model emits stop
events only. -/
structure BindStopEvent where
  hasResult : Bool
  cached : Bool
  deriving DecidableEq, Repr

/-- Modelled from the spec: the `AssemblyBindOperation` constructor's body
is in `bindertracing.cpp`, missing from the excerpt.  Per spec §4.1,
construction captures nothing but trivially-derived fields: the ignore-bind
cache starts unchecked and no result is recorded. -/
def construct : AssemblyBindOperation :=
  { m_checkedIgnoreBind := false
    m_ignoreBind := false
    m_resultAssembly := none
    m_cached := false }

/-- Modelled from the spec: `ShouldIgnoreBind` (declared bindertracing.h:41,
body in `bindertracing.cpp`, missing from the excerpt).  Per spec §4.1 the
suppression predicate is evaluated lazily and cached after the first
evaluation in `m_checkedIgnoreBind` / `m_ignoreBind`.  `raw` is the value
the underlying predicate (internal/reentrant-bind noise detection, owned by
the missing body) would produce at this evaluation. -/
def ShouldIgnoreBind (raw : Bool) (op : AssemblyBindOperation) :
    Bool × AssemblyBindOperation :=
  if op.m_checkedIgnoreBind then
    (op.m_ignoreBind, op)
  else
    (raw, { op with m_checkedIgnoreBind := true, m_ignoreBind := raw })

/-- Modelled from the spec: `SetResult` (declared bindertracing.h:28, body
in `bindertracing.cpp`, missing from the excerpt).  Per spec §4.1 it records
the outcome assembly and cache-hit flag; later calls overwrite. -/
def SetResult (op : AssemblyBindOperation) (assembly : Option PEAssembly)
    (cached : Bool) : AssemblyBindOperation :=
  { op with m_resultAssembly := assembly, m_cached := cached }

/-- Modelled from the spec: the `AssemblyBindOperation` destructor's body is
in `bindertracing.cpp`, missing from the excerpt.  Per spec §4.1, at
destruction, if the operation should not be ignored (lazy cached predicate,
`raw` being the underlying predicate's value if it is only evaluated now)
and tracing is enabled, one stop event is emitted carrying whether a result
module was ever set and the cache-hit flag; a suppressed bind emits nothing
regardless of the enabled flag. -/
def destruct (enabled raw : Bool) (op : AssemblyBindOperation) :
    List BindStopEvent :=
  let checked := ShouldIgnoreBind raw op
  if checked.1 then
    []
  else if enabled then
    [{ hasResult := checked.2.m_resultAssembly.isSome, cached := checked.2.m_cached }]
  else
    []

end AssemblyBindOperation

/-- `BinderTracing::PathSource` (bindertracing.h:179-186). -/
inductive PathSource where
  | ApplicationAssemblies
  | AppNativeImagePaths
  | AppPaths
  | PlatformResourceRoots
  | SatelliteSubdirectory
  deriving DecidableEq, Repr

/-- One emitted path-probed event: the three arguments verbatim. -/
structure PathProbedEvent where
  path : String
  source : PathSource
  hr : Int
  deriving DecidableEq, Repr

/-- Modelled from the spec: `BinderTracing::PathProbed` (declared
bindertracing.h:188, body in `bindertracing.cpp`, missing from the
excerpt).  Per spec §4.3 it emits exactly one event carrying the candidate
path, the `PathSource` category and the outcome code verbatim when tracing
is globally enabled, and does nothing when disabled; it keeps no state
across calls. -/
def PathProbed (enabled : Bool) (path : String) (source : PathSource)
    (hr : Int) : List PathProbedEvent :=
  if enabled then [{ path := path, source := source, hr := hr }] else []

/-- A trivially-permissive version/compatibility check, used to instantiate
the `compat` parameter at concrete inputs. -/
def compatAlwaysTrue : AssemblyName → AssemblyName → Bool := fun _ _ => true

end BinderTracing

namespace BinderTracing

namespace ResolutionAttemptedOperation

theorem traceStageEnd_map_stage (compat : AssemblyName → AssemblyName → Bool)
    (op : ResolutionAttemptedOperation) (hr : Int) :
    (op.TraceStageEnd compat hr).map StageEndEvent.stage = stageList op := by
  unfold TraceStageEnd stageList
  split <;> simp

theorem goToStage_disabled (compat : AssemblyName → AssemblyName → Bool)
    (op : ResolutionAttemptedOperation) (hr : Int) (s : Stage)
    (hdis : op.m_tracingEnabled = false) :
    op.GoToStage compat hr s = some (op, []) := by
  simp [GoToStage, hdis]

theorem runGoToStages_stage_trace (compat : AssemblyName → AssemblyName → Bool)
    (calls : List (Int × Stage)) :
    ∀ op opf : ResolutionAttemptedOperation, ∀ evs : List StageEndEvent,
      op.m_tracingEnabled = true →
      runGoToStages compat op calls = some (opf, evs) →
      opf.m_tracingEnabled = true ∧
        evs.map StageEndEvent.stage ++ stageList opf
          = stageList op ++ calls.map Prod.snd := by
  induction calls with
  | nil =>
    intro op opf evs hen hrun
    simp only [runGoToStages, Option.some.injEq, Prod.mk.injEq] at hrun
    obtain ⟨rfl, rfl⟩ := hrun
    simp [hen]
  | cons c rest ih =>
    obtain ⟨hr, s⟩ := c
    intro op opf evs hen hrun
    rw [runGoToStages] at hrun
    rw [Option.bind_eq_some] at hrun
    obtain ⟨⟨op2, evs1⟩, hgo, hrest⟩ := hrun
    rw [Option.map_eq_some'] at hrest
    obtain ⟨⟨op3, evs2⟩, hrec, heq⟩ := hrest
    simp only [Prod.mk.injEq] at heq
    obtain ⟨rfl, rfl⟩ := heq
    simp only [GoToStage, hen, if_true] at hgo
    split_ifs at hgo with h1 h2
    simp only [Option.some.injEq, Prod.mk.injEq] at hgo
    obtain ⟨rfl, rfl⟩ := hgo
    dsimp only at hrec
    obtain ⟨hf, hst⟩ := ih _ _ _ rfl hrec
    refine ⟨hf, ?_⟩
    have hs2 : stageList
        ⟨s, op.m_pAssemblyName, op.m_pFoundAssembly, op.m_pManagedALC, true⟩ = [s] := by
      simp [stageList, h2]
    rw [List.map_append, List.append_assoc, hst, hs2,
      traceStageEnd_map_stage]
    simp

theorem applyOp_disabled (compat : AssemblyName → AssemblyName → Bool)
    (op : ResolutionAttemptedOperation) (o : TrackerOp)
    (hdis : op.m_tracingEnabled = false) :
    ∃ op2 : ResolutionAttemptedOperation,
      applyOp compat op o = some (op2, []) ∧ op2.m_tracingEnabled = false := by
  cases o with
  | setAssemblyName n => exact ⟨_, rfl, hdis⟩
  | setManagedALC v => exact ⟨_, rfl, hdis⟩
  | setFoundAssembly a => exact ⟨_, rfl, hdis⟩
  | goToStage hr s => exact ⟨op, goToStage_disabled compat op hr s hdis, hdis⟩

theorem runOps_disabled (compat : AssemblyName → AssemblyName → Bool)
    (ops : List TrackerOp) :
    ∀ op : ResolutionAttemptedOperation, op.m_tracingEnabled = false →
      ∃ opf, runOps compat op ops = some (opf, []) ∧
        opf.m_tracingEnabled = false := by
  induction ops with
  | nil => exact fun op hdis => ⟨op, rfl, hdis⟩
  | cons o rest ih =>
    intro op hdis
    obtain ⟨op2, hap, hdis2⟩ := applyOp_disabled compat op o hdis
    obtain ⟨opf, hrun, hdisf⟩ := ih op2 hdis2
    refine ⟨opf, ?_, hdisf⟩
    rw [runOps, hap]
    simp [hrun]

end ResolutionAttemptedOperation

end BinderTracing

open BinderTracing BinderTracing.ResolutionAttemptedOperation

/-- Claim C1: for a `ResolutionAttemptedOperation` with tracing enabled,
over any sequence of accepted `GoToStage` calls followed by destruction,
the emitted stage-end events correspond one-to-one and in order with the
stages entered — one event per `GoToStage` transition, the last entered
stage's event deferred to destruction — so each event's stage identifier is
the stage that was current immediately before the transition (or
destruction) that emitted it, and the number of events equals the number of
stages entered. -/
theorem C1_stage_end_event_correspondence
    (compat : AssemblyName → AssemblyName → Bool)
    (calls : List (Int × Stage)) (hrFinal : Int)
    (opf : ResolutionAttemptedOperation) (evs : List StageEndEvent)
    (hrun : runGoToStages compat (construct true) calls = some (opf, evs)) :
    (evs ++ opf.destruct compat hrFinal).map StageEndEvent.stage
        = calls.map Prod.snd ∧
      (evs ++ opf.destruct compat hrFinal).length = calls.length := by
  obtain ⟨hf, hst⟩ :=
    runGoToStages_stage_trace compat calls _ opf evs rfl hrun
  have hd : (opf.destruct compat hrFinal).map StageEndEvent.stage
      = stageList opf := by
    simp [destruct, hf, traceStageEnd_map_stage]
  have hmap : (evs ++ opf.destruct compat hrFinal).map StageEndEvent.stage
      = calls.map Prod.snd := by
    rw [List.map_append, hd, hst]
    simp [stageList, construct]
  refine ⟨hmap, ?_⟩
  have hlen := congrArg List.length hmap
  simpa using hlen

/-- Witness for C1: a concrete two-transition run with a failing `HRESULT`
during the transitions and a succeeding one at destruction. -/
theorem C1_witness :
    ((([⟨Stage.FindInLoadContext, Result.AssemblyNotFound, none, none, 0⟩] :
          List StageEndEvent) ++
        (⟨Stage.AssemblyLoadContextLoad, none, none, 0, true⟩ :
          ResolutionAttemptedOperation).destruct compatAlwaysTrue 0).map
        StageEndEvent.stage
      = [Stage.FindInLoadContext, Stage.AssemblyLoadContextLoad]) ∧
      ((([⟨Stage.FindInLoadContext, Result.AssemblyNotFound, none, none, 0⟩] :
          List StageEndEvent) ++
        (⟨Stage.AssemblyLoadContextLoad, none, none, 0, true⟩ :
          ResolutionAttemptedOperation).destruct compatAlwaysTrue 0).length = 2) :=
  C1_stage_end_event_correspondence compatAlwaysTrue
    [((-1 : Int), Stage.FindInLoadContext),
     ((-1 : Int), Stage.AssemblyLoadContextLoad)] 0
    ⟨Stage.AssemblyLoadContextLoad, none, none, 0, true⟩
    [⟨Stage.FindInLoadContext, Result.AssemblyNotFound, none, none, 0⟩] (by decide)

/-- Counterexample to claim C2 as stated: the first `GoToStage` call on a
fresh tracker (current stage = `NotYetStarted` sentinel) emits zero
stage-end events even though tracing is enabled, not exactly one. -/
theorem C2_counterexample :
    (construct true).m_tracingEnabled = true ∧
      GoToStage compatAlwaysTrue (construct true) (-1) Stage.FindInLoadContext
        = some (⟨Stage.FindInLoadContext, none, none, 0, true⟩, []) :=
  ⟨rfl, rfl⟩

/-- Claim C2 (amended): for every accepted `GoToStage(next)` call with
tracing enabled, one stage-end event is emitted for the stage current at
the time of the call — classified from the value the shared `HRESULT` slot
holds at that moment — and only after the emission does the current stage
become `next`; except that when the current stage is still the
`NotYetStarted` sentinel (the first transition) no event is emitted. -/
theorem C2_goToStage_emission (compat : AssemblyName → AssemblyName → Bool)
    (op : ResolutionAttemptedOperation) (hr : Int) (next : Stage)
    (hen : op.m_tracingEnabled = true) (hne : op.m_stage ≠ next)
    (hns : next ≠ Stage.NotYetStarted) :
    op.GoToStage compat hr next
      = some ({ op with m_stage := next },
          if op.m_stage = Stage.NotYetStarted then []
          else [{ stage := op.m_stage,
                  result := classify compat hr op.m_pAssemblyName
                    op.m_pFoundAssembly,
                  soughtName := op.m_pAssemblyName,
                  foundAssembly := op.m_pFoundAssembly,
                  managedALC := op.m_pManagedALC }]) := by
  rw [GoToStage.eq_def]
  simp [hen, hne, hns, TraceStageEnd]

/-- Witness for C2 (amended): a tracker sitting at `FindInLoadContext` with
a succeeding `HRESULT` moves to `PlatformAssemblies`, emitting one event
for `FindInLoadContext` classified `Success`. -/
theorem C2_witness :
    GoToStage compatAlwaysTrue
        ⟨Stage.FindInLoadContext, none, none, 0, true⟩ 5 Stage.PlatformAssemblies
      = some (⟨Stage.PlatformAssemblies, none, none, 0, true⟩,
          [⟨Stage.FindInLoadContext, Result.Success, none, none, 0⟩]) :=
  (C2_goToStage_emission compatAlwaysTrue
      ⟨Stage.FindInLoadContext, none, none, 0, true⟩ 5 Stage.PlatformAssemblies
      rfl (by decide) (by decide)).trans (by rfl)

/-- Claim C3, intended behavior: the destructor emits a final stage-end
event exactly when tracing was enabled at construction and a real stage was
entered (current stage not the sentinel), and the constructor leaves the
current stage at the `NotYetStarted` sentinel.  The source slips on the
second part: the mem-initializer list (bindertracing.h:118) initializes
`m_lastStage`, which is not a member of the class, so as written `m_stage`
is never initialized; the embedding follows the evident intent. -/
theorem C3_destructor_final_event (compat : AssemblyName → AssemblyName → Bool)
    (op : ResolutionAttemptedOperation) (hr : Int) (b : Bool) :
    ((op.destruct compat hr).length = 1 ↔
        op.m_tracingEnabled = true ∧ op.m_stage ≠ Stage.NotYetStarted) ∧
      (construct b).m_stage = Stage.NotYetStarted := by
  refine ⟨?_, rfl⟩
  unfold destruct TraceStageEnd
  by_cases he : op.m_tracingEnabled = true <;>
    by_cases hs : op.m_stage = Stage.NotYetStarted <;>
      simp [he, hs]

/-- Claim C4: the stage-end classification is a pure function of the
`HRESULT`, the sought name and the found assembly: success yields
`Success`; no found assembly yields `AssemblyNotFound`; a found assembly
with mismatched simple name yields `MismatchedAssemblyName`; a found
assembly with matching name failing the version/compatibility check yields
`IncompatbileVersion`; any other failure yields `Failure`. -/
theorem C4_classification_cases (compat : AssemblyName → AssemblyName → Bool)
    (hr : Int) (sought : Option AssemblyName) (found : Option Assembly) :
    (SUCCEEDED hr = true →
      classify compat hr sought found = Result.Success) ∧
    (SUCCEEDED hr = false → found = none →
      classify compat hr sought found = Result.AssemblyNotFound) ∧
    (∀ a n, SUCCEEDED hr = false → found = some a → sought = some n →
      a.name.simpleName ≠ n.simpleName →
      classify compat hr sought found = Result.MismatchedAssemblyName) ∧
    (∀ a n, SUCCEEDED hr = false → found = some a → sought = some n →
      a.name.simpleName = n.simpleName → compat n a.name = false →
      classify compat hr sought found = Result.IncompatbileVersion) ∧
    (∀ a n, SUCCEEDED hr = false → found = some a → sought = some n →
      a.name.simpleName = n.simpleName → compat n a.name = true →
      classify compat hr sought found = Result.Failure) := by
  refine ⟨?_, ?_, ?_, ?_, ?_⟩ <;> intros <;> simp_all [classify]

/-- Witness for C4: a succeeding `HRESULT` classifies as `Success`. -/
theorem C4_witness :
    classify compatAlwaysTrue 0 none none = Result.Success :=
  (C4_classification_cases compatAlwaysTrue 0 none none).1 rfl

/-- Counterexample to claim C5 as stated: with the cached tracing flag
false, `SetAssemblyName` is not a no-op — it still writes the
assembly-name field. -/
theorem C5_counterexample :
    (construct false).m_tracingEnabled = false ∧
      ((construct false).SetAssemblyName
          (some ⟨"A", 1⟩)).m_pAssemblyName = some ⟨"A", 1⟩ ∧
      (construct false).m_pAssemblyName = none :=
  ⟨rfl, rfl, rfl⟩

/-- Claim C5 (amended): when the cached tracing flag is false, `GoToStage`
is a no-op (state unchanged, no assertion, no events) and zero events are
emitted over the instrument's whole lifetime — any interleaving of setter
and transition calls followed by destruction; the setters, however, do
still write their respective fields. -/
theorem C5_disabled_no_events (compat : AssemblyName → AssemblyName → Bool)
    (ops : List TrackerOp) (op : ResolutionAttemptedOperation)
    (hr hr2 : Int) (s : Stage)
    (hdis : op.m_tracingEnabled = false) :
    op.GoToStage compat hr2 s = some (op, []) ∧
      (runOps compat op ops).map Prod.snd = some [] ∧
      (runOps compat op ops).map (fun p => p.1.destruct compat hr)
        = some [] := by
  refine ⟨goToStage_disabled compat op hr2 s hdis, ?_, ?_⟩ <;>
    obtain ⟨opf, hrunEq, hdisf⟩ := runOps_disabled compat ops op hdis <;>
      simp [hrunEq, destruct, hdisf]

/-- Witness for C5 (amended): a disabled tracker accepts a transition to
the sentinel unchanged, and a setter-plus-transition lifetime emits no
events. -/
theorem C5_witness :
    GoToStage compatAlwaysTrue (construct false) 7 Stage.NotYetStarted
        = some (construct false, []) ∧
      (runOps compatAlwaysTrue (construct false)
          [TrackerOp.setAssemblyName (some ⟨"A", 1⟩),
           TrackerOp.goToStage 0 Stage.FindInLoadContext]).map Prod.snd
        = some [] ∧
      (runOps compatAlwaysTrue (construct false)
          [TrackerOp.setAssemblyName (some ⟨"A", 1⟩),
           TrackerOp.goToStage 0 Stage.FindInLoadContext]).map
          (fun p => p.1.destruct compatAlwaysTrue 0)
        = some [] :=
  C5_disabled_no_events compatAlwaysTrue
    [TrackerOp.setAssemblyName (some ⟨"A", 1⟩),
     TrackerOp.goToStage 0 Stage.FindInLoadContext]
    (construct false) 0 7 Stage.NotYetStarted rfl

/-- Claim C6: a bind whose suppression predicate evaluates true emits no
bind events at destruction, even if `SetResult` was called and tracing is
globally enabled; and the predicate's result is cached after the first
evaluation — re-evaluating returns the cached `true` and leaves the state
unchanged regardless of what the underlying predicate would now say. -/
theorem C6_suppressed_bind_no_events (op op1 : AssemblyBindOperation)
    (raw1 raw2 enabled cached : Bool) (assembly : Option PEAssembly)
    (h : AssemblyBindOperation.ShouldIgnoreBind raw1 op = (true, op1)) :
    AssemblyBindOperation.destruct enabled raw2
        (op1.SetResult assembly cached) = [] ∧
      AssemblyBindOperation.ShouldIgnoreBind raw2 op1 = (true, op1) := by
  have h1 : op1.m_checkedIgnoreBind = true ∧ op1.m_ignoreBind = true := by
    by_cases hc : op.m_checkedIgnoreBind = true <;>
      simp [AssemblyBindOperation.ShouldIgnoreBind, hc] at h
    · obtain ⟨hig, rfl⟩ := h
      exact ⟨hc, hig⟩
    · obtain ⟨rfl, rfl⟩ := h
      exact ⟨rfl, rfl⟩
  constructor
  · simp [AssemblyBindOperation.destruct,
      AssemblyBindOperation.ShouldIgnoreBind, h1.1, h1.2,
      AssemblyBindOperation.SetResult]
  · simp [AssemblyBindOperation.ShouldIgnoreBind, h1.1, h1.2]

/-- Witness for C6: a fresh bind whose predicate evaluates true at first
evaluation emits nothing even with a result set and tracing enabled, and
the cached result survives a later `false` raw evaluation. -/
theorem C6_witness :
    AssemblyBindOperation.destruct true false
        ((⟨true, true, none, false⟩ :
            AssemblyBindOperation).SetResult (some ⟨3⟩) true) = [] ∧
      AssemblyBindOperation.ShouldIgnoreBind false
          (⟨true, true, none, false⟩ : AssemblyBindOperation)
        = (true, (⟨true, true, none, false⟩ : AssemblyBindOperation)) :=
  C6_suppressed_bind_no_events AssemblyBindOperation.construct
    ⟨true, true, none, false⟩ true false true true (some ⟨3⟩) rfl

/-- Claim C7: with tracing enabled, `GoToStage` fails an assertion exactly
when the requested stage equals the current stage or is the `NotYetStarted`
sentinel; under the precondition that the argument differs from the current
stage and is not the sentinel, neither assertion can fail. -/
theorem C7_goToStage_assertions (compat : AssemblyName → AssemblyName → Bool)
    (op : ResolutionAttemptedOperation) (hr : Int) (stage : Stage)
    (hen : op.m_tracingEnabled = true) :
    (op.GoToStage compat hr stage = none ↔
        op.m_stage = stage ∨ stage = Stage.NotYetStarted) ∧
      (stage ≠ op.m_stage → stage ≠ Stage.NotYetStarted →
        (op.GoToStage compat hr stage).isSome = true) := by
  constructor
  · rw [GoToStage.eq_def]
    by_cases h1 : op.m_stage = stage <;>
      by_cases h2 : stage = Stage.NotYetStarted <;> simp [hen, h1, h2]
  · intro hne hns
    simp [GoToStage, hen, Ne.symm hne, hns]

/-- Witness for C7: a tracker at `FindInLoadContext` rejects a repeated
`FindInLoadContext` and accepts nothing else at that input. -/
theorem C7_witness :
    ((⟨Stage.FindInLoadContext, none, none, 0, true⟩ :
          ResolutionAttemptedOperation).GoToStage compatAlwaysTrue 0
          Stage.FindInLoadContext = none ↔
        (⟨Stage.FindInLoadContext, none, none, 0, true⟩ :
          ResolutionAttemptedOperation).m_stage = Stage.FindInLoadContext ∨
          Stage.FindInLoadContext = Stage.NotYetStarted) ∧
      (Stage.FindInLoadContext ≠ (⟨Stage.FindInLoadContext, none, none, 0, true⟩ :
          ResolutionAttemptedOperation).m_stage →
        Stage.FindInLoadContext ≠ Stage.NotYetStarted →
        ((⟨Stage.FindInLoadContext, none, none, 0, true⟩ :
          ResolutionAttemptedOperation).GoToStage compatAlwaysTrue 0
          Stage.FindInLoadContext).isSome = true) :=
  C7_goToStage_assertions compatAlwaysTrue
    ⟨Stage.FindInLoadContext, none, none, 0, true⟩ 0 Stage.FindInLoadContext rfl

/-- Counterexample to claim C8 as stated: an accepted `GoToStage` sequence
can move backward through the enumeration order — here from
`PlatformAssemblies` (value 2) back to `FindInLoadContext` (value 0) — so
transitions are not one-directional. -/
theorem C8_counterexample :
    (runGoToStages compatAlwaysTrue (construct true)
        [((-1 : Int), Stage.PlatformAssemblies),
         ((-1 : Int), Stage.FindInLoadContext)]).isSome = true ∧
      Stage.toVal Stage.FindInLoadContext
        < Stage.toVal Stage.PlatformAssemblies := by
  exact ⟨by decide, by decide⟩

/-- Claim C8 (amended): the tracker does not enforce one-directional
progression through the enumeration; what every accepted transition does
guarantee is that the requested stage differs from the stage it replaces,
is not the `NotYetStarted` sentinel, and becomes the current stage.
Forward-only, no-revisit order is a contract on the caller, not checked by
`GoToStage`. -/
theorem C8_accepted_transition_shape (compat : AssemblyName → AssemblyName → Bool)
    (op op2 : ResolutionAttemptedOperation) (hr : Int) (s : Stage)
    (evs : List StageEndEvent)
    (hen : op.m_tracingEnabled = true)
    (h : op.GoToStage compat hr s = some (op2, evs)) :
    s ≠ op.m_stage ∧ s ≠ Stage.NotYetStarted ∧ op2.m_stage = s := by
  simp only [GoToStage, hen, if_true] at h
  split_ifs at h with h1 h2
  simp only [Option.some.injEq, Prod.mk.injEq] at h
  obtain ⟨rfl, rfl⟩ := h
  exact ⟨fun hh => h1 hh.symm, h2, rfl⟩

/-- Witness for C8 (amended): the accepted first transition of a fresh
enabled tracker. -/
theorem C8_witness :
    Stage.AssemblyLoadContextLoad ≠ (construct true).m_stage ∧
      Stage.AssemblyLoadContextLoad ≠ Stage.NotYetStarted ∧
      (⟨Stage.AssemblyLoadContextLoad, none, none, 0, true⟩ :
          ResolutionAttemptedOperation).m_stage
        = Stage.AssemblyLoadContextLoad :=
  C8_accepted_transition_shape compatAlwaysTrue (construct true)
    ⟨Stage.AssemblyLoadContextLoad, none, none, 0, true⟩ 0
    Stage.AssemblyLoadContextLoad [] rfl (by decide)

/-- Claim C9: every `PathProbed(path, source, hr)` call emits exactly one
path-probed event carrying the three arguments verbatim when tracing is
globally enabled, and nothing when disabled; it is a pure function of its
arguments and keeps no state across calls. -/
theorem C9_pathProbed (enabled : Bool) (path : String) (source : PathSource)
    (hr : Int) :
    (enabled = true →
      PathProbed enabled path source hr
        = [{ path := path, source := source, hr := hr }]) ∧
      (enabled = false → PathProbed enabled path source hr = []) := by
  constructor <;> intro h <;> simp [PathProbed, h]

/-- Witness for C9: the spec's example probe, emitted verbatim. -/
theorem C9_witness :
    PathProbed true "/app/lib/Foo.dll" PathSource.AppPaths (-2147024894)
      = [{ path := "/app/lib/Foo.dll", source := PathSource.AppPaths,
           hr := -2147024894 }] :=
  (C9_pathProbed true "/app/lib/Foo.dll" PathSource.AppPaths
    (-2147024894)).1 rfl

/-- Claim C10: when the cached tracing flag is false, `GoToStage` performs
no assertion checking at all — any argument, including the current stage
itself and the `NotYetStarted` sentinel, is silently accepted, leaving the
tracker unchanged and emitting nothing, because both assertions sit inside
the tracing-enabled branch. -/
theorem C10_disabled_no_assertions (compat : AssemblyName → AssemblyName → Bool)
    (op : ResolutionAttemptedOperation) (hr : Int) (stage : Stage)
    (hdis : op.m_tracingEnabled = false) :
    op.GoToStage compat hr stage = some (op, []) :=
  goToStage_disabled compat op hr stage hdis

/-- Witness for C10: a disabled fresh tracker silently accepts a transition
to the sentinel, which is simultaneously the current stage. -/
theorem C10_witness :
    GoToStage compatAlwaysTrue (construct false) 0 Stage.NotYetStarted
      = some (construct false, []) :=
  C10_disabled_no_assertions compatAlwaysTrue (construct false) 0
    Stage.NotYetStarted rfl
